import Mathlib

/-!
Shallow embedding of the `daemon2` package (python-daemon2): the launcher's
double-fork protocol and lifecycle queries (`src/daemon2/launcher.py`), the
daemon runtime (`src/daemon2/background.py`) and the OS helper wrappers
(`src/daemon2/util.py`), together with theorems settling the specification
claims about them.

Conventions of the embedding:
* Python integers are Lean `Int`; `None`-or-int values are `Option Int`.
* Python truthiness of an optional integer is `pyTruthy` (0 and `None` are falsy).
* Fallible Python code is `Except PyError _`; each `PyError` constructor stands
  for the Python exception class of the same name (`DaemonError` carries the
  message string given at the raise site).
* OS facts a query consults (which pids resolve to a live process) are a
  `World` record passed explicitly.
* Side-effecting OS steps are recorded as explicit event/op traces so that
  ordering claims can be stated.
-/

namespace Daemon2

/-- Python exception classes reachable in the modelled code paths.
`daemonError` is `daemon2.exceptions.DaemonError` with its message. -/
inductive PyError
  | typeError
  | attributeError
  | valueError
  | assertionError
  | daemonError (msg : String)
  deriving Repr, DecidableEq

/-- Python truthiness of an int-or-None value: `None` and `0` are falsy. -/
def pyTruthy : Option Int → Bool
  | none => false
  | some n => n != 0

/-- Python `a or b` on int-or-None values: yields `a` when `a` is truthy,
otherwise `b`. -/
def pyOr (a b : Option Int) : Option Int :=
  if pyTruthy a then a else b

/-- Python `int(s)` on a string: strip surrounding whitespace, accept an
optional sign followed by decimal digits; anything else raises `ValueError`
(modelled as `none`). -/
def pyParseInt (s : String) : Option Int :=
  let t := s.trim
  if t.startsWith "-" then
    match (t.drop 1).toNat? with
    | some n => some (-(n : Int))
    | none => none
  else if t.startsWith "+" then
    match (t.drop 1).toNat? with
    | some n => some ((n : Int))
    | none => none
  else
    match t.toNat? with
    | some n => some ((n : Int))
    | none => none

/-- PID lock file as the launcher sees it: `read_pid()` returns the stored
pid or `None`. -/
structure PidFile where
  storedPid : Option Int
  deriving Repr, DecidableEq

/-- A `psutil.Process` handle, carrying the pid it was resolved for. -/
structure PsProcess where
  pid : Int
  deriving Repr, DecidableEq

/-- The OS facts the launcher queries consult: `resolvable p` is true when
`psutil.Process(p)` succeeds (a process with pid `p` exists), and false when
it raises `psutil.NoSuchProcess`. -/
structure World where
  resolvable : Int → Bool

/-- State of a `launcher.Launcher` instance (launcher.py, lines 41 to 47):
`_spawnedPid` (pid of the child spawned by this launcher, if any), the
optional pidfile, and `_processCache` (a pair of the pid the cache was built
for and the resolved handle, or `None` before the first `process` query). -/
structure Launcher where
  spawnedPid : Option Int
  pidfile : Option PidFile
  processCache : Option (Option Int × Option PsProcess)
  deriving Repr, DecidableEq

/-- Result of `self.pidfile.read_pid()` guarded by `if self.pidfile:`
(a pidfile object is always truthy; `None` is falsy). -/
def readPidOf : Option PidFile → Option Int
  | some f => f.storedPid
  | none => none

/-- Launcher.pid property (launcher.py, lines 114 to 129): `pid1` is the
spawned pid, `pid2` the pidfile pid (or `None` without a pidfile); when both
are non-`None` and differ a warning is logged; the returned value is the
Python expression `pid1 or pid2`. -/
def Launcher.pid (l : Launcher) : Option Int :=
  let pid1 := l.spawnedPid
  let pid2 := readPidOf l.pidfile
  pyOr pid1 pid2

/-- Body of the `if pid:` block inside Launcher.process (launcher.py, lines
102 to 108): for a truthy pid, `psutil.Process(pid)` yields a handle when the
pid resolves and `None` on `psutil.NoSuchProcess`; for a falsy pid (`None`
or 0) the handle is `None`. -/
def resolveProcess (w : World) (pid : Option Int) : Option PsProcess :=
  if pyTruthy pid then
    match pid with
    | some p => if w.resolvable p then some ⟨p⟩ else none
    | none => none
  else none

/-- Launcher.process property (launcher.py, lines 96 to 112). The cache is
rebuilt when it is `None` or was built for a different pid; the method then
returns `self._processCache[0]` — slot 0 of the tuple `(pid, process)`, i.e.
the pid, not the resolved handle. The result is the returned value paired
with the launcher carrying the updated cache. -/
def Launcher.processAux (l : Launcher) (w : World) : Option Int × Launcher :=
  let pid := l.pid
  match l.processCache with
  | some c =>
    if pid = c.1 then
      (c.1, ⟨l.spawnedPid, l.pidfile, some c⟩)
    else
      let c' := (pid, resolveProcess w pid)
      (c'.1, ⟨l.spawnedPid, l.pidfile, some c'⟩)
  | none =>
    let c' := (pid, resolveProcess w pid)
    (c'.1, ⟨l.spawnedPid, l.pidfile, some c'⟩)

/-- Launcher.running property (launcher.py, lines 87 to 94): binds
`proc = self.process`; when `proc` is truthy evaluates `proc.is_running()`,
else the result is `False`. Since `process` returns cache slot 0 (an int or
`None`), a truthy `proc` is a plain integer and the attribute access
`proc.is_running` raises `AttributeError`. -/
def Launcher.runningAux (l : Launcher) (w : World) : Except PyError Bool × Launcher :=
  let r := l.processAux w
  if pyTruthy r.1 then
    (.error .attributeError, r.2)
  else
    (.ok false, r.2)

/-- Names bound at module level in `src/daemon2/util.py` (its `def`s and the
`MAXFD` constant); `getattr` on the module for any other name raises
`AttributeError`. -/
def utilModuleNames : List String :=
  [ "change_working_directory", "change_root_directory",
    "change_file_creation_mask", "change_process_owner",
    "prevent_core_dump", "get_maximum_file_descriptors",
    "close_all_open_files", "redirect_stream", "MAXFD" ]

/-- Attribute lookup on the `util` module. -/
def utilGetattr (name : String) : Except PyError Unit :=
  if name ∈ utilModuleNames then .ok () else .error .attributeError

/-- Outcome of the parent's 10-second readiness wait on the pipe read end:
either `select` timed out, or a read delivered `payload` (possibly empty on
end-of-file). -/
inductive HandshakeOutcome
  | timeout
  | data (payload : String)
  deriving Repr, DecidableEq

/-- Parent branch of `Launcher._forkDaemon` (launcher.py, lines 150 to 167):
first `util.close_fd(pidWrite)` — an attribute lookup on the `util` module —
then the select wait; on timeout the result is `None`; on data, an empty
payload yields `None` (`if txtPid:` falsy) and a nonempty payload is passed
to `int(...)`, which raises `ValueError` when unparseable. -/
def forkDaemonParent (h : HandshakeOutcome) : Except PyError (Option Int) :=
  match utilGetattr "close_fd" with
  | .error e => .error e
  | .ok _ =>
    match h with
    | .timeout => .ok none
    | .data s =>
      if s = "" then .ok none
      else
        match pyParseInt s with
        | some n => .ok (some n)
        | none => .error .valueError

/-- Launcher.start (launcher.py, lines 49 to 60): raise
`DaemonError("Daemon is already running.")` when `self.running` is truthy
(propagating any exception `running` itself raises); otherwise run
`_forkDaemon` — whose parent branch decides the returned pid — store the
result in `_spawnedPid` and return it. -/
def Launcher.start (l : Launcher) (w : World) (h : HandshakeOutcome) :
    Except PyError (Option Int) × Launcher :=
  let r := l.runningAux w
  match r.1 with
  | .error e => (.error e, r.2)
  | .ok true => (.error (.daemonError "Daemon is already running."), r.2)
  | .ok false =>
    match forkDaemonParent h with
    | .error e => (.error e, r.2)
    | .ok childPid => (.ok childPid, ⟨childPid, r.2.pidfile, r.2.processCache⟩)

/-- Launcher.terminate (launcher.py, lines 63 to 75): raise
`DaemonError("Daemon is not running.")` when `self.running` is falsy
(propagating any exception `running` raises); otherwise bind
`process = self.process`, `assert process`, and call `process.terminate()` —
an attribute access on the int that `process` actually returns, hence
`AttributeError`. -/
def Launcher.terminate (l : Launcher) (w : World) : Except PyError Unit × Launcher :=
  let r := l.runningAux w
  match r.1 with
  | .error e => (.error e, r.2)
  | .ok false => (.error (.daemonError "Daemon is not running."), r.2)
  | .ok true =>
    let q := r.2.processAux w
    if pyTruthy q.1 then
      (.error .attributeError, q.2)
    else
      (.error .assertionError, q.2)

/-- World in which no pid resolves to a live process. -/
def deadWorld : World := ⟨fun _ => false⟩

/-- Configuration state of a `background.Daemon` after `__init__`
(background.py, lines 164 to 197). The `target` callable and the
`setupLogging` hook are not data; where their outcome matters it is passed
as an explicit flag. `signal_map` entries record the signal name together
with the truthiness of the mapped handler (`false` models a `None` value);
`__init__` turns a `None` map into the empty map (`signal_map or {}`).
`uid` and `gid` default to the caller's real ids, captured here as explicit
fields. -/
structure Daemon where
  name : String
  chroot_directory : Option String
  working_directory : String
  umask : Int
  uid : Int
  gid : Int
  prevent_core : Bool
  stdin : Option Int
  stdout : Option Int
  stderr : Option Int
  signal_map : List (String × Bool)
  deriving Repr, DecidableEq

/-- Observable actions of `Daemon.run` (background.py, lines 200 to 218):
`configured` is the `configureSystem()` call, `acquired` and `released` the
pidfile lock operations, and `osExit rc` the final `os._exit(rc)` — the
low-level exit primitive that bypasses normal cleanup handlers. -/
inductive RunEvent
  | configured
  | acquired
  | released
  | osExit (rc : Int)
  deriving Repr, DecidableEq

/-- Daemon.run (background.py, lines 200 to 218) as the trace of its
observable actions, for a run in which the pidfile acquisition succeeds.
`loggingRaises` is the outcome of `self.setupLogging()`, `targetRaises` the
outcome of `self.target()`. Mirrors the statements: `rc = 254`; an outer
`try` whose `finally` runs `pidfile.release()` then `os._exit(rc)`; inside
it `setupLogging()`, then an inner `try` running `target()`, with a bare
`except` assigning `rc = 255` and an inner `finally` assigning `rc = 0`.
The inner `finally` runs unconditionally after the `except` clause, so the
255 assignment is always overwritten on any path that reaches the inner
block. -/
def Daemon.run (loggingRaises targetRaises : Bool) : List RunEvent :=
  let rc : Int := 254
  if loggingRaises then
    -- setupLogging raised: the inner try never runs; the outer finally
    -- releases the pidfile and exits with rc still 254
    [ .configured, .acquired, .released, .osExit rc]
  else
    let _rc : Int := if targetRaises then 255 else rc
    -- the inner finally clause then assigns rc = 0 unconditionally,
    -- discarding the 255 set by the except clause
    [ .configured, .acquired, .released, .osExit 0]

/-- Signal numbers as bound on the `signal` module (Linux values); `getattr`
for a name not bound on the module raises `AttributeError`, modelled by
`none`. -/
def signalByName : String → Option Int
  | "SIGHUP" => some 1
  | "SIGINT" => some 2
  | "SIGUSR1" => some 10
  | "SIGUSR2" => some 12
  | "SIGTERM" => some 15
  | "SIGCHLD" => some 17
  | "SIGTSTP" => some 20
  | "SIGTTIN" => some 21
  | "SIGTTOU" => some 22
  | _ => none

/-- Linux signal number of SIGTERM. -/
def SIGTERM : Int := 15

/-- Linux signal number of SIGTSTP. -/
def SIGTSTP : Int := 20

/-- Linux signal number of SIGTTIN. -/
def SIGTTIN : Int := 21

/-- Linux signal number of SIGTTOU. -/
def SIGTTOU : Int := 22

/-- Handler values `Daemon.getSignalHandlers` can place in its dict:
the wrapper `_getUserSignalHandle(name)` for a user-mapped signal, or the
runtime's own `onTerminateSignal`. The code never produces `signal.SIG_IGN`
for any signal. -/
inductive SigHandler
  | userHandle (name : String)
  | onTerminateSignal
  deriving Repr, DecidableEq

/-- Python dict assignment `d[k] = v` on a dict kept as an insertion-ordered
association list: overwrite the existing entry for `k`, or append. -/
def dictSet (d : List (Int × SigHandler)) (k : Int) (v : SigHandler) :
    List (Int × SigHandler) :=
  if d.any (fun p => p.1 == k) then
    d.map (fun p => if p.1 == k then (k, v) else p)
  else
    d ++ [(k, v)]

/-- Loop body of `Daemon.getSignalHandlers` (background.py, lines 255 to
258): for each `(name, handle)` in `signal_map`, look the name up on the
`signal` module (raising `AttributeError` for an unknown name) and, only
when `handle` is truthy, set `out[sigId]` to the user-handle wrapper; a
falsy (`None`) handle installs nothing. -/
def getSignalHandlersLoop (entries : List (String × Bool))
    (out : List (Int × SigHandler)) : Except PyError (List (Int × SigHandler)) :=
  match entries with
  | [] => .ok out
  | (name, handle) :: rest =>
    match signalByName name with
    | none => .error .attributeError
    | some sigId =>
      getSignalHandlersLoop rest
        (if handle then dictSet out sigId (.userHandle name) else out)

/-- Daemon.getSignalHandlers (background.py, lines 253 to 260): run the loop
over `signal_map` starting from an empty dict, then unconditionally set
`out[signal.SIGTERM] = self.onTerminateSignal`. -/
def Daemon.getSignalHandlers (d : Daemon) : Except PyError (List (Int × SigHandler)) :=
  match getSignalHandlersLoop d.signal_map [] with
  | .error e => .error e
  | .ok out => .ok (dictSet out SIGTERM .onTerminateSignal)

/-- OS-level steps recorded by the session-setup helpers of util.py:
`chdir`/`chroot` directory changes, the core-dump limit set to (0, 0),
`umask`, `setgid`/`setuid`, and the two forms of `os.dup2` onto a standard
descriptor slot — from a supplied stream's descriptor, or from a descriptor
freshly obtained by opening the null device read-write. -/
inductive SessionOp
  | chdir (dir : String)
  | chroot (dir : String)
  | setCoreLimitZero
  | setUmask (mask : Int)
  | setgid (gid : Int)
  | setuid (uid : Int)
  | dup2 (srcFd : Int) (target : Nat)
  | openDevNullAndDup2 (target : Nat)
  deriving Repr, DecidableEq

/-- util.change_working_directory (util.py, lines 11 to 19). -/
def change_working_directory (dir : String) : List SessionOp :=
  [ .chdir dir]

/-- util.change_root_directory (util.py, lines 22 to 36): `os.chdir` into
the directory, then `os.chroot`. -/
def change_root_directory (dir : String) : List SessionOp :=
  [ .chdir dir, .chroot dir]

/-- util.change_file_creation_mask (util.py, lines 38 to 46). -/
def change_file_creation_mask (mask : Int) : List SessionOp :=
  [ .setUmask mask]

/-- util.change_process_owner (util.py, lines 49 to 65): `os.setgid(gid)`
when `os.getgid() != gid`, then `os.setuid(uid)` when `os.getuid() != uid`;
each call is skipped when the process already has the target id. `curUid`
and `curGid` stand for the ambient `os.getuid()` / `os.getgid()`. -/
def change_process_owner (uid gid curUid curGid : Int) : List SessionOp :=
  (if curGid ≠ gid then [ .setgid gid] else []) ++
  (if curUid ≠ uid then [ .setuid uid] else [])

/-- util.prevent_core_dump (util.py, lines 67 to 88): sets the soft and
hard core-dump limits to zero. -/
def prevent_core_dump : List SessionOp :=
  [ .setCoreLimitZero]

/-- util.redirect_stream (util.py, lines 135 to 150): with no stream, open
the null device read-write and `dup2` its descriptor onto the target slot;
with a stream, `dup2` the stream's `fileno()` onto the target slot. -/
def redirect_stream (target : Nat) (stream : Option Int) : List SessionOp :=
  match stream with
  | none => [ .openDevNullAndDup2 target]
  | some fd => [ .dup2 fd target]

/-- Daemon.setupProcessSession body (background.py, lines 234 to 250) as the
trace of OS steps it performs, in statement order: chroot when configured,
core-dump prevention when configured, umask, working directory, privilege
drop, then stream redirection onto descriptors 0, 1 and 2 (the
`close_all_open_files` call is commented out in the source). -/
def Daemon.setupProcessSession (d : Daemon) (curUid curGid : Int) : List SessionOp :=
  (match d.chroot_directory with
   | some dir => change_root_directory dir
   | none => []) ++
  (if d.prevent_core then prevent_core_dump else []) ++
  change_file_creation_mask d.umask ++
  change_working_directory d.working_directory ++
  change_process_owner d.uid d.gid curUid curGid ++
  redirect_stream 0 d.stdin ++
  redirect_stream 1 d.stdout ++
  redirect_stream 2 d.stderr

/-- Number of formal parameters of `Daemon.setupProcessSession` beyond
`self`, read off its definition `def setupProcessSession(self):`
(background.py, line 234). -/
def setupProcessSession_paramCount : Nat := 0

/-- Number of positional arguments the launcher's first-child branch passes
at the call site `daemon.setupProcessSession([pidWrite])` (launcher.py,
line 170): one, the list `[pidWrite]`. -/
def setupProcessSession_callArgCount : Nat := 1

/-- Python positional-argument binding for a plain method with no default
values and no varargs: the call raises `TypeError` unless the argument
count equals the parameter count. -/
def pyBindPositional (paramCount argCount : Nat) : Except PyError Unit :=
  if argCount = paramCount then .ok () else .error .typeError

/-- The first-child branch's invocation of the daemon's session setup
(launcher.py, line 170, against the signature at background.py, line 234):
the binding of the one positional argument to a parameter list that has
none. -/
def firstChildSessionSetupCall : Except PyError Unit :=
  pyBindPositional setupProcessSession_paramCount setupProcessSession_callArgCount

/-- Session-setup sequence as the specification words it, written directly
from the spec for comparison with `Daemon.setupProcessSession`: chroot when
configured (changing directory into it, then chroot), core-dump prevention
when configured, umask, working-directory change, privilege drop setting the
group id before the user id with each set call skipped when the process
already has the target id, then stream redirection duplicating the supplied
stream's descriptor onto slots 0, 1, 2, opening the null device read-write
when the stream is absent. -/
def sessionSetupPerSpec (d : Daemon) (curUid curGid : Int) : List SessionOp :=
  (match d.chroot_directory with
   | some dir => [ .chdir dir, .chroot dir]
   | none => []) ++
  (if d.prevent_core then [ .setCoreLimitZero] else []) ++
  [ .setUmask d.umask] ++
  [ .chdir d.working_directory] ++
  (if curGid ≠ d.gid then [ .setgid d.gid] else []) ++
  (if curUid ≠ d.uid then [ .setuid d.uid] else []) ++
  (match d.stdin with
   | some fd => [ .dup2 fd 0]
   | none => [ .openDevNullAndDup2 0]) ++
  (match d.stdout with
   | some fd => [ .dup2 fd 1]
   | none => [ .openDevNullAndDup2 1]) ++
  (match d.stderr with
   | some fd => [ .dup2 fd 2]
   | none => [ .openDevNullAndDup2 2])

/-- C1: the first-child branch's invocation of the daemon's Process Session
Setup does NOT succeed: `daemon.setupProcessSession([pidWrite])` passes one
positional argument while `setupProcessSession(self)` declares none, so the
call itself raises `TypeError` for every daemon configuration, and session
setup never runs before the second fork. -/
theorem firstChild_sessionSetup_call_raises_typeError :
    firstChildSessionSetupCall = .error .typeError := rfl

/-- C2: on a Launcher whose current pid (12345) refers to no live OS
process, the `running` query does not return false — it raises
`AttributeError`, because `Launcher.process` returns slot 0 of its cache
(the pid integer) instead of the resolved handle, and `is_running` is then
looked up on that integer. -/
theorem running_on_dead_pid_raises_attributeError :
    (Launcher.runningAux ⟨some 12345, none, none⟩ deadWorld).1 =
      .error .attributeError := by
  rfl

/-- C3: `Daemon.run` exits with code 0 both when the target raises and when
it completes normally — the inner `finally` clause assigns `rc = 0`
unconditionally, discarding the `rc = 255` set by the `except` clause, so a
raising target does not produce exit code 255. -/
theorem run_exits_zero_for_raising_target :
    Daemon.run false true = [ .configured, .acquired, .released, .osExit 0] ∧
    Daemon.run false false = [ .configured, .acquired, .released, .osExit 0] :=
  ⟨rfl, rfl⟩

/-- C4: the parent branch of the first fork raises `AttributeError` for
every handshake outcome: its first statement `util.close_fd(pidWrite)` looks
up `close_fd` on the `util` module, which defines no such name, so the
branch never reaches the select wait and never returns "no pid". -/
theorem forkDaemonParent_always_raises_attributeError :
    ∀ h : HandshakeOutcome, forkDaemonParent h = .error .attributeError := by
  intro h
  cases h <;> rfl

/-- C5: for every outcome of `Daemon.run` after pidfile acquisition —
target returning normally, target raising, or logging setup raising — the
trace releases the pidfile exactly once and then terminates through
`os._exit` (the `osExit` event) as its final action. -/
theorem run_releases_pidfile_once_then_exits :
    ∀ loggingRaises targetRaises : Bool,
      ∃ rc : Int,
        Daemon.run loggingRaises targetRaises =
          [ .configured, .acquired, .released, .osExit rc] ∧
        (Daemon.run loggingRaises targetRaises).count .released = 1 := by
  intro lr tr
  cases lr <;> cases tr <;> exact ⟨_, rfl, by decide⟩

/-- C6: with the default (empty) signal map — and likewise when the user
maps SIGTTIN, SIGTTOU and SIGTSTP to `None` — the installed handler set is
exactly SIGTERM bound to the runtime's `onTerminateSignal`: no SIG_IGN
entry is ever installed for the terminal-stop and background-read/write
signals, contrary to the claimed default-ignore behaviour. -/
theorem getSignalHandlers_installs_no_default_ignores :
    Daemon.getSignalHandlers
        ⟨ "test", none, "/", 0, 0, 0, true, none, none, none, []⟩ =
      .ok [ (SIGTERM, .onTerminateSignal)] ∧
    Daemon.getSignalHandlers
        ⟨ "test", none, "/", 0, 0, 0, true, none, none, none,
          [ ("SIGTTIN", false), ("SIGTTOU", false), ("SIGTSTP", false)]⟩ =
      .ok [ (SIGTERM, .onTerminateSignal)] :=
  ⟨rfl, rfl⟩

/-- C7: `Launcher.start` on a fresh launcher (where `running` is false)
does not store and return a spawned pid: it propagates the
`AttributeError` raised inside `_forkDaemon`'s parent branch (the missing
`util.close_fd`), shown here with a handshake that would have delivered the
decimal pid 123, and `_spawnedPid` stays `None`. -/
theorem start_never_stores_spawned_pid :
    (Launcher.start ⟨none, none, none⟩ deadWorld (.data "123")).1 =
      .error .attributeError ∧
    (Launcher.start ⟨none, none, none⟩ deadWorld (.data "123")).2.spawnedPid =
      none :=
  ⟨rfl, rfl⟩

/-- C8: `Daemon.setupProcessSession` performs exactly the spec's ordered
sequence: chroot when configured, core-dump prevention when configured,
umask, working-directory change, privilege drop with the group id set
before the user id and each set call skipped when the current id already
equals the target, then stream redirection onto descriptor slots 0, 1 and
2, opening the null device read-write for each absent stream. -/
theorem setupProcessSession_matches_spec_order :
    ∀ (d : Daemon) (curUid curGid : Int),
      Daemon.setupProcessSession d curUid curGid =
        sessionSetupPerSpec d curUid curGid := by
  intro d u g
  obtain ⟨name, cd, wd, um, uid, gid, pc, si, so, se, sm⟩ := d
  cases cd <;> cases pc <;> cases si <;> cases so <;> cases se <;> rfl

/-- C9 counterexample: a Launcher whose spawned pid is 0 and whose pidfile
reports pid 7 has both pids present and disagreeing, yet `pid` returns the
pidfile's 7 rather than the directly-spawned pid — Python's `pid1 or pid2`
treats the integer 0 as falsy. -/
theorem pid_zero_spawned_counterexample :
    (Launcher.spawnedPid ⟨some 0, some ⟨some 7⟩, none⟩).isSome ∧
    (readPidOf (Launcher.pidfile ⟨some 0, some ⟨some 7⟩, none⟩)).isSome ∧
    Launcher.spawnedPid ⟨some 0, some ⟨some 7⟩, none⟩ ≠
      readPidOf (Launcher.pidfile ⟨some 0, some ⟨some 7⟩, none⟩) ∧
    Launcher.pid ⟨some 0, some ⟨some 7⟩, none⟩ = some 7 ∧
    Launcher.pid ⟨some 0, some ⟨some 7⟩, none⟩ ≠
      Launcher.spawnedPid ⟨some 0, some ⟨some 7⟩, none⟩ := by
  decide

/-- C9 amended: whenever the spawned pid is present and nonzero, `pid`
returns it (taking precedence over whatever the pidfile reports, and
covering the case where only the spawned pid is present); with no spawned
pid, `pid` returns the pidfile's pid, or `None` when that too is absent. A
spawned pid of 0 is Python-falsy and is treated as absent. -/
theorem pid_reconciliation_amended (p : Int) (hp : p ≠ 0) (pf : Option PidFile)
    (c : Option (Option Int × Option PsProcess)) :
    Launcher.pid ⟨some p, pf, c⟩ = some p ∧
    Launcher.pid ⟨none, pf, c⟩ = readPidOf pf := by
  refine ⟨?_, rfl⟩
  show pyOr (some p) (readPidOf pf) = some p
  simp [pyOr, pyTruthy, hp]

/-- Witness for the amended C9 at spawned pid 5 and pidfile pid 7. -/
theorem pid_reconciliation_amended_witness :
    Launcher.pid ⟨some 5, some ⟨some 7⟩, none⟩ = some 5 ∧
    Launcher.pid ⟨none, some ⟨some 7⟩, none⟩ = some 7 := by
  have h := pid_reconciliation_amended 5 (by decide) (some ⟨some 7⟩) none
  simpa [readPidOf] using h

/-- C10: a fresh Launcher (never spawned, no pidfile, empty cache) answers
`pid` with `None`, `process` with `None`, `running` with false (raising
nothing), and a first `start` is never rejected with the "already running"
lifecycle-state error, in any world and for any handshake outcome. -/
theorem fresh_launcher_initial_queries :
    ∀ (w : World) (h : HandshakeOutcome),
      Launcher.pid ⟨none, none, none⟩ = none ∧
      (Launcher.processAux ⟨none, none, none⟩ w).1 = none ∧
      (Launcher.runningAux ⟨none, none, none⟩ w).1 = .ok false ∧
      (Launcher.start ⟨none, none, none⟩ w h).1 ≠
        .error (.daemonError "Daemon is already running.") := by
  intro w h
  refine ⟨rfl, rfl, rfl, ?_⟩
  have hstart : (Launcher.start ⟨none, none, none⟩ w h).1 =
      .error .attributeError := by
    cases h <;> rfl
  rw [hstart]
  simp

end Daemon2
